import Mathlib

/-!
# Verification of the ResearchStrategy round-resolution engine

Shallow embedding of `src/ai4peace/core_v2/research_strategy_game_mechanics.py`.

Modelling conventions:
* Python `float` is modelled as `ℚ` (exact rational arithmetic; the source only
  adds, subtracts, multiplies, divides and compares).
* Python `dict[str, float]` (the per-year budget, the `required_assets` dict of
  a `CreateResearchProjectAction`) is modelled as an association list
  `List (String × ℚ)` with first-match lookup defaulting to `0`
  (`dict.get(k, 0.0)`) and first-match replace-or-append update (`d[k] = v`).
* `datetime.datetime` values are modelled by a linear day count `ℤ` where only
  date arithmetic is used (`target_completion_date`), together with a
  precomputed `current_year_key : String` on the game state standing for the
  Python expression `str(game_state.current_date.year)`, which is the only way
  the current date enters the mechanics studied here.
* Python f-string number formatting (`{x:,.0f}`, `{x:.1f}`) is abstracted by
  `fmtFloat`; no claim depends on the digit rendering of a number.
* `random_gen.random()` draws are passed in as explicit `roll : ℚ` arguments.
* Mutation of the shared `players` object graph is modelled by explicit state
  passing: a write through an aliased player object becomes a first-match
  update of the corresponding entry of the `players` list.
-/

/-- Association-list form of Python `dict.get(key, 0.0)` (first match wins). -/
def dictGet (d : List (String × ℚ)) (key : String) : ℚ :=
  match d with
  | [] => 0
  | (k, v) :: rest => if k = key then v else dictGet rest key

/-- Association-list form of Python `d[key] = value`: replace the first
binding of `key`, or append a new binding if absent. -/
def dictSet (d : List (String × ℚ)) (key : String) (value : ℚ) : List (String × ℚ) :=
  match d with
  | [] => [(key, value)]
  | (k, v) :: rest => if k = key then (key, value) :: rest else (k, v) :: dictSet rest key value

/-- Abstraction of Python float formatting in f-strings; the claims never
inspect the digits of a formatted number. -/
def fmtFloat (q : ℚ) : String := toString (q.num) ++ "/" ++ toString (q.den)

/-- `AssetBalance` — three scalar resources (`research_strategy_game_mechanics.py:51`). -/
structure AssetBalance where
  technical_capability : ℚ := 0
  capital : ℚ := 0
  human : ℚ := 0
deriving DecidableEq, Repr

/-- `AssetBalance.add` (componentwise). -/
def AssetBalance.add (a b : AssetBalance) : AssetBalance :=
  { technical_capability := a.technical_capability + b.technical_capability
    capital := a.capital + b.capital
    human := a.human + b.human }

/-- `AssetBalance.subtract` (componentwise). -/
def AssetBalance.subtract (a b : AssetBalance) : AssetBalance :=
  { technical_capability := a.technical_capability - b.technical_capability
    capital := a.capital - b.capital
    human := a.human - b.human }

/-- `ResearchProject` (`research_strategy_game_mechanics.py:80`).
`target_completion_date` is a day count. -/
structure ResearchProject where
  project_name : String
  description : String
  target_completion_date : ℤ
  committed_budget : ℚ
  committed_assets : AssetBalance
  status : String := "active"
  progress : ℚ := 0
  realistic_goals : Option String := none
deriving DecidableEq, Repr

/-- `Message` (`research_strategy_game_mechanics.py:94`). -/
structure Message where
  from_character : String
  to_character : String
  content : String
  timestamp : ℤ
  round_number : ℤ
deriving DecidableEq, Repr

/-- `PublicView` (`research_strategy_game_mechanics.py:104`). -/
structure PublicView where
  asset_balance : AssetBalance
  stated_objectives : String
  stated_strategy : String
  public_artifacts : List String := []
deriving DecidableEq, Repr

/-- One entry of `PrivateInfo.espionage` (the dict appended at
`research_strategy_game_mechanics.py:746`). -/
structure EspionageRecord where
  target : String
  focus : String
  budget : ℚ
  success : Bool
  round : ℤ
deriving DecidableEq, Repr

/-- `PrivateInfo` (`research_strategy_game_mechanics.py:112`). -/
structure PrivateInfo where
  true_asset_balance : AssetBalance
  objectives : String
  strategy : String
  budget : List (String × ℚ)
  espionage : List EspionageRecord := []
  projects : List ResearchProject := []
deriving DecidableEq, Repr

/-- `ResearchStrategyPlayerState` (`research_strategy_game_mechanics.py:129`). -/
structure ResearchStrategyPlayerState where
  name : String
  private_info : PrivateInfo
  public_view : PublicView
  inbox : List Message := []
  recent_actions : List String := []
deriving DecidableEq, Repr

/-- `ResearchStrategyGameState` (`research_strategy_game_mechanics.py:149`).
`current_year_key` stands for `str(current_date.year)`; `current_date_days`
is the day count of `current_date` used in date arithmetic. -/
structure ResearchStrategyGameState where
  current_date_days : ℤ
  current_year_key : String
  round_number : ℤ
  public_events : List String := []
  game_history : List String := []
deriving DecidableEq, Repr

/-- A `ResearchStrategyPlayer` as seen by the game mechanics: its `name` and
its mutable `attributes` state (the LLM plumbing is external). -/
structure RSPlayer where
  name : String
  attributes : ResearchStrategyPlayerState
deriving DecidableEq, Repr

/-- `Action._get_player_by_name` (`research_strategy_game_mechanics.py:248`):
first player whose `name` matches. -/
def getPlayerByName (name : String) : List RSPlayer → Option RSPlayer
  | [] => none
  | p :: rest => if p.name = name then some p else getPlayerByName name rest

/-- Write through an aliased player object: update the `attributes` of the
first player with the given name (the object `_get_player_by_name` returns). -/
def updatePlayerByName (players : List RSPlayer) (name : String)
    (f : ResearchStrategyPlayerState → ResearchStrategyPlayerState) : List RSPlayer :=
  match players with
  | [] => []
  | p :: rest =>
      if p.name = name then { p with attributes := f p.attributes } :: rest
      else p :: updatePlayerByName rest name f

/-- Base-class validation (`Action.validate_action`,
`research_strategy_game_mechanics.py:240`): the initiating player must exist. -/
def Action.base_validate (initiating_character_name : String) (players : List RSPlayer) :
    Option String :=
  match getPlayerByName initiating_character_name players with
  | none => some ("Player '" ++ initiating_character_name ++ "' not found")
  | some _ => none

/-- `CreateResearchProjectAction` (`research_strategy_game_mechanics.py:326`).
`target_completion_date` is the parse of the ISO string: `none` when
`datetime.fromisoformat` raises `ValueError`. -/
structure CreateResearchProjectAction where
  initiating_character_name : String
  project_name : String
  description : String
  target_completion_date : Option ℤ
  annual_budget : ℚ
  required_assets : List (String × ℚ)
deriving DecidableEq, Repr

/-- The `AssetBalance` built from a `required_assets` dict
(`research_strategy_game_mechanics.py:351` and `:375`). -/
def requiredBalance (required_assets : List (String × ℚ)) : AssetBalance :=
  { technical_capability := dictGet required_assets "technical_capability"
    capital := dictGet required_assets "capital"
    human := dictGet required_assets "human" }

/-- `CreateResearchProjectAction.validate_action`
(`research_strategy_game_mechanics.py:339`). -/
def CreateResearchProjectAction.validate_action (a : CreateResearchProjectAction)
    (game_state : ResearchStrategyGameState) (players : List RSPlayer) : Option String :=
  match Action.base_validate a.initiating_character_name players with
  | some e => some e
  | none =>
    match getPlayerByName a.initiating_character_name players with
    | none => some ("Player '" ++ a.initiating_character_name ++ "' not found")
    | some player =>
      let required := requiredBalance a.required_assets
      let current := player.attributes.private_info.true_asset_balance
      if current.technical_capability < required.technical_capability ∨
          current.capital < required.capital ∨ current.human < required.human then
        some ("Insufficient resources for research project '" ++ a.project_name ++ "'")
      else
        let year := game_state.current_year_key
        let current_budget := dictGet player.attributes.private_info.budget year
        if current_budget < a.annual_budget then
          some ("Insufficient budget for research project '" ++ a.project_name ++ "'")
        else none

/-- `CreateResearchProjectAction._assess_research_realism`
(`research_strategy_game_mechanics.py:443`), with `datetime.now()` passed in
as `now`. The Python callback mutates `project.target_completion_date` and
returns the new `realistic_goals`; both effects are combined here. -/
def CreateResearchProjectAction.assess_research_realism (now : ℤ)
    (project : ResearchProject) (_player_state : ResearchStrategyPlayerState) :
    ResearchProject :=
  let days_to_complete : ℤ := project.target_completion_date - now
  let required_resources : ℚ :=
    project.committed_assets.human +
      project.committed_assets.technical_capability * 0.5 +
      project.committed_assets.capital * 0.3
  if required_resources * (days_to_complete : ℚ) < (days_to_complete : ℚ) * 10 then
    { project with
        target_completion_date := now + 365
        realistic_goals := some "Timeline extended to be more realistic given available resources." }
  else
    { project with realistic_goals := none }

/-- `CreateResearchProjectAction._process_single_action`
(`research_strategy_game_mechanics.py:372`), with the realism callback
(`_assess_research_realism`, as passed by `handle_actions`) inlined and
`datetime.now()` passed in as `now`. -/
def CreateResearchProjectAction.process_single_action (a : CreateResearchProjectAction)
    (player_state : ResearchStrategyPlayerState) (game_state : ResearchStrategyGameState)
    (now : ℤ) : ResearchStrategyPlayerState × String :=
  let required := requiredBalance a.required_assets
  let current := player_state.private_info.true_asset_balance
  if current.technical_capability < required.technical_capability ∨
      current.capital < required.capital ∨ current.human < required.human then
    (player_state, "Fail:Insufficient resources to start research project '" ++ a.project_name ++ "'")
  else
    let year := game_state.current_year_key
    let current_budget := dictGet player_state.private_info.budget year
    if current_budget < a.annual_budget then
      (player_state, "Fail:Insufficient budget for research project '" ++ a.project_name ++ "'")
    else
      let target_date := a.target_completion_date.getD (game_state.current_date_days + 365)
      let project : ResearchProject :=
        { project_name := a.project_name
          description := a.description
          target_completion_date := target_date
          committed_budget := a.annual_budget
          committed_assets := required
          status := "active"
          progress := 0
          realistic_goals := none }
      let project := CreateResearchProjectAction.assess_research_realism now project player_state
      let ps :=
        { player_state with
            private_info :=
              { player_state.private_info with
                  true_asset_balance := current.subtract required
                  budget := dictSet player_state.private_info.budget year
                    (current_budget - a.annual_budget)
                  projects := player_state.private_info.projects ++ [project] } }
      (ps, "Success:Created research project '" ++ a.project_name ++ "'")

theorem dictGet_dictSet_same (d : List (String × ℚ)) (k : String) (v : ℚ) :
    dictGet (dictSet d k v) k = v := by
  induction d with
  | nil => simp [dictGet, dictSet]
  | cons hd tl ih =>
      obtain ⟨k', v'⟩ := hd
      by_cases h : k' = k
      · simp [dictGet, dictSet, h]
      · simp [dictGet, dictSet, h, ih]

theorem assess_research_realism_status (now : ℤ) (p : ResearchProject)
    (ps : ResearchStrategyPlayerState) :
    (CreateResearchProjectAction.assess_research_realism now p ps).status = p.status ∧
    (CreateResearchProjectAction.assess_research_realism now p ps).progress = p.progress := by
  simp only [CreateResearchProjectAction.assess_research_realism]
  constructor <;> (split <;> rfl)

/-- C3: a `CreateResearchProject` action whose resolution succeeds deducts the
committed assets from the owner's true balance componentwise, deducts the
annual budget from the current-year budget exactly, and appends a new project
with status `"active"` and progress `0`. -/
theorem C3_create_project_success (a : CreateResearchProjectAction)
    (ps : ResearchStrategyPlayerState) (gs : ResearchStrategyGameState) (now : ℤ)
    (hres : ¬(ps.private_info.true_asset_balance.technical_capability <
          (requiredBalance a.required_assets).technical_capability ∨
        ps.private_info.true_asset_balance.capital < (requiredBalance a.required_assets).capital ∨
        ps.private_info.true_asset_balance.human < (requiredBalance a.required_assets).human))
    (hbud : a.annual_budget ≤ dictGet ps.private_info.budget gs.current_year_key) :
    (a.process_single_action ps gs now).1.private_info.true_asset_balance.technical_capability
        = ps.private_info.true_asset_balance.technical_capability
          - (requiredBalance a.required_assets).technical_capability ∧
    (a.process_single_action ps gs now).1.private_info.true_asset_balance.capital
        = ps.private_info.true_asset_balance.capital - (requiredBalance a.required_assets).capital ∧
    (a.process_single_action ps gs now).1.private_info.true_asset_balance.human
        = ps.private_info.true_asset_balance.human - (requiredBalance a.required_assets).human ∧
    dictGet (a.process_single_action ps gs now).1.private_info.budget gs.current_year_key
        = dictGet ps.private_info.budget gs.current_year_key - a.annual_budget ∧
    ∃ p, (a.process_single_action ps gs now).1.private_info.projects
          = ps.private_info.projects ++ [p] ∧ p.status = "active" ∧ p.progress = 0 := by
  unfold CreateResearchProjectAction.process_single_action
  rw [if_neg hres, if_neg (not_lt.mpr hbud)]
  refine ⟨rfl, rfl, rfl, ?_, ?_⟩
  · exact dictGet_dictSet_same _ _ _
  · exact ⟨_, rfl, (assess_research_realism_status _ _ _).1,
      (assess_research_realism_status _ _ _).2⟩

def c3A : CreateResearchProjectAction :=
  { initiating_character_name := "P1"
    project_name := "fusion"
    description := "fusion research"
    target_completion_date := some 1000
    annual_budget := 40
    required_assets := [("technical_capability", 3), ("capital", 20), ("human", 6)] }

def c3PS : ResearchStrategyPlayerState :=
  { name := "P1"
    private_info :=
      { true_asset_balance := { technical_capability := 10, capital := 50, human := 8 }
        objectives := "win"
        strategy := "build"
        budget := [("2030", 100)] }
    public_view :=
      { asset_balance := { technical_capability := 10, capital := 50, human := 8 }
        stated_objectives := "win"
        stated_strategy := "build" } }

def c3GS : ResearchStrategyGameState :=
  { current_date_days := 0, current_year_key := "2030", round_number := 1 }

theorem C3_create_project_success_witness :
    (¬(c3PS.private_info.true_asset_balance.technical_capability <
          (requiredBalance c3A.required_assets).technical_capability ∨
        c3PS.private_info.true_asset_balance.capital < (requiredBalance c3A.required_assets).capital ∨
        c3PS.private_info.true_asset_balance.human < (requiredBalance c3A.required_assets).human)) ∧
    c3A.annual_budget ≤ dictGet c3PS.private_info.budget c3GS.current_year_key ∧
    (c3A.process_single_action c3PS c3GS 0).1.private_info.true_asset_balance.capital
      = c3PS.private_info.true_asset_balance.capital - (requiredBalance c3A.required_assets).capital ∧
    dictGet (c3A.process_single_action c3PS c3GS 0).1.private_info.budget c3GS.current_year_key
      = dictGet c3PS.private_info.budget c3GS.current_year_key - c3A.annual_budget :=
  ⟨by decide, by decide,
    (C3_create_project_success c3A c3PS c3GS 0 (by decide) (by decide)).2.1,
    (C3_create_project_success c3A c3PS c3GS 0 (by decide) (by decide)).2.2.2.1⟩

/-- C4: a `CreateResearchProject` request whose required assets exceed the
current true balance is rejected by `validate_action` with a non-null reason,
and `_process_single_action` leaves the owner's state entirely unchanged,
producing only the failure result string. -/
theorem C4_create_project_insufficient (a : CreateResearchProjectAction)
    (player : RSPlayer) (players : List RSPlayer) (gs : ResearchStrategyGameState) (now : ℤ)
    (hfind : getPlayerByName a.initiating_character_name players = some player)
    (hexceed : player.attributes.private_info.true_asset_balance.technical_capability <
          (requiredBalance a.required_assets).technical_capability ∨
        player.attributes.private_info.true_asset_balance.capital <
          (requiredBalance a.required_assets).capital ∨
        player.attributes.private_info.true_asset_balance.human <
          (requiredBalance a.required_assets).human) :
    a.validate_action gs players
        = some ("Insufficient resources for research project '" ++ a.project_name ++ "'") ∧
    a.process_single_action player.attributes gs now
        = (player.attributes,
           "Fail:Insufficient resources to start research project '" ++ a.project_name ++ "'") := by
  constructor
  · simp only [CreateResearchProjectAction.validate_action, Action.base_validate, hfind]
    rw [if_pos hexceed]
  · unfold CreateResearchProjectAction.process_single_action
    rw [if_pos hexceed]

def c4A : CreateResearchProjectAction :=
  { initiating_character_name := "P1"
    project_name := "moonshot"
    description := "too big"
    target_completion_date := none
    annual_budget := 10
    required_assets := [("technical_capability", 3), ("capital", 999), ("human", 6)] }

theorem C4_create_project_insufficient_witness :
    (getPlayerByName "P1" [⟨"P1", c3PS⟩] = some ⟨"P1", c3PS⟩) ∧
    ((50 : ℚ) < (requiredBalance c4A.required_assets).capital) ∧
    c4A.validate_action c3GS [⟨"P1", c3PS⟩]
        = some "Insufficient resources for research project 'moonshot'" ∧
    c4A.process_single_action c3PS c3GS 0
        = (c3PS, "Fail:Insufficient resources to start research project 'moonshot'") := by
  have h := C4_create_project_insufficient c4A ⟨"P1", c3PS⟩ [⟨"P1", c3PS⟩] c3GS 0
    (by decide) (by right; left; decide)
  exact ⟨by decide, by decide, h.1, h.2⟩

/-- The research-progress parameters of `ResearchStrategyGameMaster`
(`research_strategy_game_mechanics.py:1519`). -/
structure ResearchParams where
  research_progress_rate_base : ℚ := 0.1
  research_progress_rate_max : ℚ := 0.3
  research_human_scaling : ℚ := 100
deriving DecidableEq, Repr

/-- The per-project progress/status mutation of
`ResearchStrategyGameMaster._update_research_projects`
(`research_strategy_game_mechanics.py:1674`): only for `"active"` projects,
add `min(base + committedHuman/scaling, maxRate)` clamped to `1.0`, and flip
the status to `"completed"` when the new progress reaches `1.0`. -/
def updateResearchProject (gm : ResearchParams) (project : ResearchProject) : ResearchProject :=
  if project.status = "active" then
    let progress_rate := min
      (gm.research_progress_rate_base +
        project.committed_assets.human / gm.research_human_scaling)
      gm.research_progress_rate_max
    let progress := min (project.progress + progress_rate) 1
    { project with
        progress := progress
        status := if progress ≥ 1 then "completed" else project.status }
  else project

/-- The per-project budget deduction of `_update_research_projects`
(`research_strategy_game_mechanics.py:1686`): charge the committed annual
budget against the current year, but only if sufficient funds exist. -/
def chargeProjectBudget (year : String) (project : ResearchProject)
    (budget : List (String × ℚ)) : List (String × ℚ) :=
  let b := dictGet budget year
  if b ≥ project.committed_budget then dictSet budget year (b - project.committed_budget)
  else budget

/-- The loop of `_update_research_projects` over one player's project list
(`research_strategy_game_mechanics.py:1672`), threading the mutable budget. -/
def update_research_projects_loop (gm : ResearchParams) (year : String) :
    List ResearchProject → List (String × ℚ) → List ResearchProject × List (String × ℚ)
  | [], budget => ([], budget)
  | p :: rest, budget =>
      if p.status = "active" then
        let p' := updateResearchProject gm p
        let budget' := chargeProjectBudget year p budget
        let out := update_research_projects_loop gm year rest budget'
        (p' :: out.1, out.2)
      else
        let out := update_research_projects_loop gm year rest budget
        (p :: out.1, out.2)

/-- `ResearchStrategyGameMaster._update_research_projects`
(`research_strategy_game_mechanics.py:1670`): apply the loop to every player. -/
def update_research_projects (gm : ResearchParams) (gs : ResearchStrategyGameState)
    (players : List RSPlayer) : List RSPlayer :=
  players.map (fun player =>
    let out := update_research_projects_loop gm gs.current_year_key
      player.attributes.private_info.projects player.attributes.private_info.budget
    { player with
        attributes :=
          { player.attributes with
              private_info :=
                { player.attributes.private_info with
                    projects := out.1
                    budget := out.2 } } })

theorem updateResearchProject_committed_assets (gm : ResearchParams) (p : ResearchProject) :
    (updateResearchProject gm p).committed_assets = p.committed_assets := by
  unfold updateResearchProject
  split <;> rfl

theorem updateResearchProject_progress_le_one (gm : ResearchParams) (p : ResearchProject)
    (h : p.progress ≤ 1) : (updateResearchProject gm p).progress ≤ 1 := by
  unfold updateResearchProject
  split
  · exact min_le_right _ _
  · exact h

theorem updateResearchProject_progress_mono (gm : ResearchParams) (p : ResearchProject)
    (hrate : 0 ≤ gm.research_progress_rate_base +
      p.committed_assets.human / gm.research_human_scaling)
    (hmax : 0 ≤ gm.research_progress_rate_max) (hle : p.progress ≤ 1) :
    p.progress ≤ (updateResearchProject gm p).progress := by
  unfold updateResearchProject
  split
  · exact le_min (le_add_of_nonneg_right (le_min hrate hmax)) hle
  · exact le_refl _

theorem updateResearchProject_iterate_le_one (gm : ResearchParams) (p : ResearchProject)
    (hle : p.progress ≤ 1) (n : ℕ) : ((updateResearchProject gm)^[n] p).progress ≤ 1 := by
  induction n with
  | zero => simpa using hle
  | succ k ih =>
      rw [Function.iterate_succ_apply']
      exact updateResearchProject_progress_le_one gm _ ih

theorem updateResearchProject_iterate_committed (gm : ResearchParams) (p : ResearchProject)
    (n : ℕ) : ((updateResearchProject gm)^[n] p).committed_assets = p.committed_assets := by
  induction n with
  | zero => simp
  | succ k ih =>
      rw [Function.iterate_succ_apply']
      rw [updateResearchProject_committed_assets]
      exact ih

/-- C5: per round, an `"active"` project's progress increases by
`min(base + committedHuman/scaling, maxRate)` clamped so that it never exceeds
`1.0`; progress is monotonically non-decreasing across rounds (assuming the
configured rates are non-negative and progress starts within `[0,1]`); an
active project's status flips to `"completed"` exactly when its new progress
reaches `1.0` (and otherwise stays `"active"`); and a `"completed"` or
`"cancelled"` project is never changed again. -/
theorem C5_research_progress (gm : ResearchParams) (p : ResearchProject) :
    (p.status = "active" →
      (updateResearchProject gm p).progress =
        min (p.progress + min
          (gm.research_progress_rate_base +
            p.committed_assets.human / gm.research_human_scaling)
          gm.research_progress_rate_max) 1 ∧
      (updateResearchProject gm p).progress ≤ 1 ∧
      ((updateResearchProject gm p).status = "completed" ↔
        (updateResearchProject gm p).progress = 1) ∧
      ((updateResearchProject gm p).status = "completed" ∨
        (updateResearchProject gm p).status = "active")) ∧
    (0 ≤ gm.research_progress_rate_base +
        p.committed_assets.human / gm.research_human_scaling →
      0 ≤ gm.research_progress_rate_max → p.progress ≤ 1 →
      ∀ n m : ℕ, n ≤ m →
        ((updateResearchProject gm)^[n] p).progress ≤
          ((updateResearchProject gm)^[m] p).progress) ∧
    (p.status = "completed" ∨ p.status = "cancelled" → updateResearchProject gm p = p) := by
  refine ⟨?_, ?_, ?_⟩
  · intro hactive
    have hdef : (updateResearchProject gm p).progress =
        min (p.progress + min
          (gm.research_progress_rate_base +
            p.committed_assets.human / gm.research_human_scaling)
          gm.research_progress_rate_max) 1 := by
      unfold updateResearchProject
      rw [if_pos hactive]
    refine ⟨hdef, ?_, ?_, ?_⟩
    · rw [hdef]; exact min_le_right _ _
    · unfold updateResearchProject
      rw [if_pos hactive]
      simp only
      constructor
      · intro hs
        by_cases hge : min (p.progress + min
            (gm.research_progress_rate_base +
              p.committed_assets.human / gm.research_human_scaling)
            gm.research_progress_rate_max) 1 ≥ 1
        · exact le_antisymm (min_le_right _ _) hge
        · rw [if_neg hge] at hs
          rw [hactive] at hs
          exact absurd hs (by decide)
      · intro hp
        rw [hp]
        simp
    · unfold updateResearchProject
      rw [if_pos hactive]
      simp only
      split
      · left; rfl
      · right; exact hactive
  · intro hrate hmax hle n m hnm
    have mono : ∀ k : ℕ, ((updateResearchProject gm)^[k] p).progress ≤
        ((updateResearchProject gm)^[k + 1] p).progress := by
      intro k
      rw [Function.iterate_succ_apply']
      exact updateResearchProject_progress_mono gm _
        (by rw [updateResearchProject_iterate_committed]; exact hrate) hmax
        (updateResearchProject_iterate_le_one gm p hle k)
    exact monotone_nat_of_le_succ mono hnm
  · intro hdone
    unfold updateResearchProject
    rcases hdone with h | h <;> rw [h] <;> simp

def c5GM : ResearchParams := {}

def c5P : ResearchProject :=
  { project_name := "reactor"
    description := "big reactor"
    target_completion_date := 100
    committed_budget := 10
    committed_assets := { human := 40 }
    status := "active"
    progress := 0.95 }

theorem C5_research_progress_witness :
    c5P.status = "active" ∧
    (updateResearchProject c5GM c5P).progress ≤ 1 ∧
    ((updateResearchProject c5GM c5P).status = "completed" ∨
      (updateResearchProject c5GM c5P).status = "active") ∧
    ((updateResearchProject c5GM)^[1] c5P).progress ≤
      ((updateResearchProject c5GM)^[2] c5P).progress := by
  have h := C5_research_progress c5GM c5P
  exact ⟨rfl, (h.1 rfl).2.1, (h.1 rfl).2.2.2,
    h.2.1 (by norm_num [c5P, c5GM]) (by norm_num [c5GM]) (by norm_num [c5P]) 1 2 (by norm_num)⟩

/-- C10: when the passive research update visits an `"active"` project, the
owner's current-year budget is charged the project's committed annual budget
exactly when the budget covers it (otherwise left unchanged for that
project), the charged budget is what the rest of the loop continues with, and
the charge is applied even when this round's progress update completes the
project. -/
theorem C10_budget_charge (gm : ResearchParams) (year : String) (p : ResearchProject)
    (rest : List ResearchProject) (budget : List (String × ℚ))
    (hactive : p.status = "active") :
    update_research_projects_loop gm year (p :: rest) budget
      = (updateResearchProject gm p ::
          (update_research_projects_loop gm year rest (chargeProjectBudget year p budget)).1,
         (update_research_projects_loop gm year rest (chargeProjectBudget year p budget)).2) ∧
    dictGet (chargeProjectBudget year p budget) year
      = (if dictGet budget year ≥ p.committed_budget
         then dictGet budget year - p.committed_budget
         else dictGet budget year) ∧
    ((updateResearchProject gm p).status = "completed" →
      dictGet (chargeProjectBudget year p budget) year
        = (if dictGet budget year ≥ p.committed_budget
           then dictGet budget year - p.committed_budget
           else dictGet budget year)) := by
  have hcharge : dictGet (chargeProjectBudget year p budget) year
      = (if dictGet budget year ≥ p.committed_budget
         then dictGet budget year - p.committed_budget
         else dictGet budget year) := by
    simp only [chargeProjectBudget]
    split
    · rw [dictGet_dictSet_same]
    · rfl
  refine ⟨?_, hcharge, fun _ => hcharge⟩
  show (update_research_projects_loop gm year (p :: rest) budget) = _
  simp only [update_research_projects_loop]
  rw [if_pos hactive]

def c10P : ResearchProject :=
  { project_name := "drone"
    description := "drone work"
    target_completion_date := 50
    committed_budget := 30
    committed_assets := { human := 40 }
    status := "active"
    progress := 0.95 }

theorem C10_budget_charge_witness :
    c10P.status = "active" ∧
    (updateResearchProject c5GM c10P).status = "completed" ∧
    dictGet (chargeProjectBudget "2030" c10P [("2030", 100)]) "2030"
      = (if dictGet [("2030", 100)] "2030" ≥ c10P.committed_budget
         then dictGet [("2030", 100)] "2030" - c10P.committed_budget
         else dictGet [("2030", 100)] "2030") ∧
    update_research_projects_loop c5GM "2030" [c10P] [("2030", 100)]
      = (updateResearchProject c5GM c10P ::
          (update_research_projects_loop c5GM "2030" []
            (chargeProjectBudget "2030" c10P [("2030", 100)])).1,
         (update_research_projects_loop c5GM "2030" []
            (chargeProjectBudget "2030" c10P [("2030", 100)])).2) := by
  have h := C10_budget_charge c5GM "2030" c10P [] [("2030", 100)] rfl
  refine ⟨rfl, ?_, h.2.1, h.1⟩
  norm_num [c10P, c5GM, updateResearchProject, min_def]

/-- `CancelResearchProjectAction` (`research_strategy_game_mechanics.py:464`). -/
structure CancelResearchProjectAction where
  initiating_character_name : String
  project_name : String
  refund_rate : ℚ := 0.5
deriving DecidableEq, Repr

/-- The scan of `CancelResearchProjectAction._process_single_action`
(`research_strategy_game_mechanics.py:503`): cancel the first project with a
matching name and `"active"` status, returning the updated list and the
refund `committed_assets * refund_rate`; `none` when no such project exists. -/
def cancelFirstActive (name : String) (refund_rate : ℚ) :
    List ResearchProject → Option (List ResearchProject × AssetBalance)
  | [] => none
  | p :: rest =>
      if p.project_name = name ∧ p.status = "active" then
        some ({ p with status := "cancelled" } :: rest,
          { technical_capability := p.committed_assets.technical_capability * refund_rate
            capital := p.committed_assets.capital * refund_rate
            human := p.committed_assets.human * refund_rate })
      else
        match cancelFirstActive name refund_rate rest with
        | none => none
        | some out => some (p :: out.1, out.2)

/-- `CancelResearchProjectAction._process_single_action`
(`research_strategy_game_mechanics.py:500`). -/
def CancelResearchProjectAction.process_single_action (a : CancelResearchProjectAction)
    (player_state : ResearchStrategyPlayerState) (_game_state : ResearchStrategyGameState) :
    ResearchStrategyPlayerState × String :=
  match cancelFirstActive a.project_name a.refund_rate player_state.private_info.projects with
  | some out =>
      ({ player_state with
          private_info :=
            { player_state.private_info with
                projects := out.1
                true_asset_balance := player_state.private_info.true_asset_balance.add out.2 } },
       "Success:Cancelled research project '" ++ a.project_name ++ "'")
  | none =>
      (player_state, "Fail:Could not find active research project '" ++ a.project_name ++ "'")

theorem cancelFirstActive_spec (name : String) (rate : ℚ) (pre post : List ResearchProject)
    (p : ResearchProject) (hname : p.project_name = name) (hstatus : p.status = "active")
    (hpre : ∀ q ∈ pre, ¬(q.project_name = name ∧ q.status = "active")) :
    cancelFirstActive name rate (pre ++ p :: post)
      = some (pre ++ { p with status := "cancelled" } :: post,
          { technical_capability := p.committed_assets.technical_capability * rate
            capital := p.committed_assets.capital * rate
            human := p.committed_assets.human * rate }) := by
  induction pre with
  | nil =>
      simp only [List.nil_append]
      unfold cancelFirstActive
      rw [if_pos ⟨hname, hstatus⟩]
  | cons q qs ih =>
      simp only [List.cons_append]
      unfold cancelFirstActive
      rw [if_neg (hpre q (by simp))]
      rw [ih (fun r hr => hpre r (by simp [hr]))]

/-- C8: a `CancelResearchProject` action resolved against an `"active"`
project owned by the initiator with a matching name (the first such project)
flips that project's status to `"cancelled"` and refunds
`committed_assets * refund_rate` componentwise into the owner's true asset
balance. -/
theorem C8_cancel_project (a : CancelResearchProjectAction)
    (player_state : ResearchStrategyPlayerState) (gs : ResearchStrategyGameState)
    (pre post : List ResearchProject) (p : ResearchProject)
    (hsplit : player_state.private_info.projects = pre ++ p :: post)
    (hname : p.project_name = a.project_name) (hstatus : p.status = "active")
    (hpre : ∀ q ∈ pre, ¬(q.project_name = a.project_name ∧ q.status = "active")) :
    (a.process_single_action player_state gs).1.private_info.projects
      = pre ++ { p with status := "cancelled" } :: post ∧
    (a.process_single_action player_state gs).1.private_info.true_asset_balance.technical_capability
      = player_state.private_info.true_asset_balance.technical_capability
        + p.committed_assets.technical_capability * a.refund_rate ∧
    (a.process_single_action player_state gs).1.private_info.true_asset_balance.capital
      = player_state.private_info.true_asset_balance.capital
        + p.committed_assets.capital * a.refund_rate ∧
    (a.process_single_action player_state gs).1.private_info.true_asset_balance.human
      = player_state.private_info.true_asset_balance.human
        + p.committed_assets.human * a.refund_rate ∧
    (a.process_single_action player_state gs).2
      = "Success:Cancelled research project '" ++ a.project_name ++ "'" := by
  unfold CancelResearchProjectAction.process_single_action
  rw [hsplit, cancelFirstActive_spec a.project_name a.refund_rate pre post p hname hstatus hpre]
  exact ⟨rfl, rfl, rfl, rfl, rfl⟩

def c8P : ResearchProject :=
  { project_name := "lasers"
    description := "laser lab"
    target_completion_date := 200
    committed_budget := 12
    committed_assets := { technical_capability := 2, capital := 8, human := 4 }
    status := "active"
    progress := 0.25 }

def c8PS : ResearchStrategyPlayerState :=
  { name := "P1"
    private_info :=
      { true_asset_balance := { technical_capability := 1, capital := 2, human := 3 }
        objectives := "win"
        strategy := "focus"
        budget := [("2030", 100)]
        projects := [c8P] }
    public_view :=
      { asset_balance := { technical_capability := 1, capital := 2, human := 3 }
        stated_objectives := "win"
        stated_strategy := "focus" } }

def c8A : CancelResearchProjectAction :=
  { initiating_character_name := "P1", project_name := "lasers" }

theorem C8_cancel_project_witness :
    c8PS.private_info.projects = [] ++ c8P :: [] ∧
    c8P.project_name = c8A.project_name ∧ c8P.status = "active" ∧
    (c8A.process_single_action c8PS c3GS).1.private_info.projects
      = [] ++ { c8P with status := "cancelled" } :: [] ∧
    (c8A.process_single_action c8PS c3GS).1.private_info.true_asset_balance.capital
      = c8PS.private_info.true_asset_balance.capital
        + c8P.committed_assets.capital * c8A.refund_rate := by
  have h := C8_cancel_project c8A c8PS c3GS [] [] c8P rfl rfl rfl (by simp)
  exact ⟨rfl, rfl, rfl, h.1, h.2.2.1⟩

theorem getPlayerByName_update_ne (l : List RSPlayer) (n m : String)
    (f : ResearchStrategyPlayerState → ResearchStrategyPlayerState) (h : m ≠ n) :
    getPlayerByName m (updatePlayerByName l n f) = getPlayerByName m l := by
  induction l with
  | nil => rfl
  | cons p rest ih =>
      unfold updatePlayerByName
      by_cases hp : p.name = n
      · rw [if_pos hp]
        unfold getPlayerByName
        rw [if_neg (by simpa [hp] using h.symm), if_neg (by rw [hp]; exact fun e => h e.symm)]
      · rw [if_neg hp]
        unfold getPlayerByName
        by_cases hm : p.name = m
        · rw [if_pos hm, if_pos hm]
        · rw [if_neg hm, if_neg hm, ih]

theorem getPlayerByName_update_same (l : List RSPlayer) (n : String)
    (f : ResearchStrategyPlayerState → ResearchStrategyPlayerState) :
    getPlayerByName n (updatePlayerByName l n f)
      = (getPlayerByName n l).map (fun p => { p with attributes := f p.attributes }) := by
  induction l with
  | nil => rfl
  | cons p rest ih =>
      unfold updatePlayerByName
      by_cases hp : p.name = n
      · rw [if_pos hp]
        unfold getPlayerByName
        rw [if_pos hp, if_pos hp]
        rfl
      · rw [if_neg hp]
        unfold getPlayerByName
        rw [if_neg hp, if_neg hp, ih]

/-- `EspionageAction` (`research_strategy_game_mechanics.py:675`). -/
structure EspionageAction where
  initiating_character_name : String
  target_player : String
  budget : ℚ
  focus : String
  base_success_rate : ℚ := 0.3
  budget_scaling : ℚ := 1000000
  max_success_rate : ℚ := 0.8
deriving DecidableEq, Repr

/-- `EspionageAction.validate_action` (`research_strategy_game_mechanics.py:691`). -/
def EspionageAction.validate_action (a : EspionageAction)
    (game_state : ResearchStrategyGameState) (players : List RSPlayer) : Option String :=
  match Action.base_validate a.initiating_character_name players with
  | some e => some e
  | none =>
    if a.target_player = "" then some "Espionage requires target character"
    else if ¬ players.any (fun p => p.name == a.target_player) then
      some ("Target character '" ++ a.target_player ++ "' not found")
    else if a.budget ≤ 0 then some "Espionage requires positive budget"
    else
      match getPlayerByName a.initiating_character_name players with
      | none => some ("Player '" ++ a.initiating_character_name ++ "' not found")
      | some player =>
        if dictGet player.attributes.private_info.budget game_state.current_year_key
            < a.budget then
          some "Insufficient budget for espionage"
        else none

/-- `EspionageAction._process_single_action`
(`research_strategy_game_mechanics.py:718`), with the `random_gen.random()`
draw passed in as `roll`. -/
def EspionageAction.process_single_action (a : EspionageAction)
    (player_state : ResearchStrategyPlayerState) (game_state : ResearchStrategyGameState)
    (players : List RSPlayer) (roll : ℚ) : ResearchStrategyPlayerState × String :=
  match getPlayerByName a.target_player players with
  | none => (player_state, "Fail:Espionage target '" ++ a.target_player ++ "' not found")
  | some _ =>
    let year := game_state.current_year_key
    let budget := dictGet player_state.private_info.budget year
    if budget < a.budget then (player_state, "Fail:Insufficient budget for espionage")
    else
      let success_prob := min (a.base_success_rate + a.budget / a.budget_scaling)
        a.max_success_rate
      let success := decide (roll < success_prob)
      let ps :=
        { player_state with
            private_info :=
              { player_state.private_info with
                  budget := dictSet player_state.private_info.budget year (budget - a.budget)
                  espionage := player_state.private_info.espionage ++
                    [{ target := a.target_player, focus := a.focus, budget := a.budget,
                       success := success, round := game_state.round_number }] } }
      (ps, (if success then "Success" else "Fail") ++ ":Conducted espionage on "
        ++ a.target_player)

/-- One iteration of `EspionageAction.handle_actions`
(`research_strategy_game_mechanics.py:757`): look up the initiating player,
run `_process_single_action` on its state, and (modelling the Python object
aliasing) write the mutated state back into the players list. An action whose
initiator is unknown is skipped (`continue`). -/
def EspionageAction.handle_one (a : EspionageAction) (game_state : ResearchStrategyGameState)
    (players : List RSPlayer) (roll : ℚ) : List RSPlayer × List String :=
  match getPlayerByName a.initiating_character_name players with
  | none => (players, [])
  | some player =>
      let out := a.process_single_action player.attributes game_state players roll
      (updatePlayerByName players a.initiating_character_name (fun _ => out.1), [out.2])

/-- C6: resolving an espionage action (with the target present and the
initiator's budget sufficient) never changes the target's state — nor any
state but the initiator's own; it deducts the espionage budget from the
initiator and appends an attempt record (target, focus, success flag, round)
to the initiator's private espionage log, in the success and in the failure
case alike; the initiator's assets, projects, inbox and public view are
untouched. -/
theorem C6_espionage_frame (a : EspionageAction) (gs : ResearchStrategyGameState)
    (players : List RSPlayer) (roll : ℚ) (tgt player : RSPlayer)
    (hT : getPlayerByName a.target_player players = some tgt)
    (hI : getPlayerByName a.initiating_character_name players = some player)
    (hne : a.target_player ≠ a.initiating_character_name)
    (hbud : a.budget ≤ dictGet player.attributes.private_info.budget gs.current_year_key) :
    getPlayerByName a.target_player (a.handle_one gs players roll).1 = some tgt ∧
    (∀ name, name ≠ a.initiating_character_name →
      getPlayerByName name (a.handle_one gs players roll).1 = getPlayerByName name players) ∧
    ∃ ps, getPlayerByName a.initiating_character_name (a.handle_one gs players roll).1
        = some { player with attributes := ps } ∧
      ps.private_info.true_asset_balance = player.attributes.private_info.true_asset_balance ∧
      ps.private_info.projects = player.attributes.private_info.projects ∧
      ps.inbox = player.attributes.inbox ∧
      ps.public_view = player.attributes.public_view ∧
      dictGet ps.private_info.budget gs.current_year_key
        = dictGet player.attributes.private_info.budget gs.current_year_key - a.budget ∧
      ps.private_info.espionage = player.attributes.private_info.espionage ++
        [{ target := a.target_player, focus := a.focus, budget := a.budget,
           success := decide (roll < min (a.base_success_rate + a.budget / a.budget_scaling)
             a.max_success_rate),
           round := gs.round_number }] := by
  unfold EspionageAction.handle_one
  rw [hI]
  unfold EspionageAction.process_single_action
  rw [hT]
  simp only
  rw [if_neg (not_lt.mpr hbud)]
  refine ⟨?_, ?_, ?_⟩
  · rw [getPlayerByName_update_ne _ _ _ _ hne, hT]
  · intro name hname
    exact getPlayerByName_update_ne _ _ _ _ hname
  · refine ⟨{ player.attributes with
        private_info :=
          { player.attributes.private_info with
              budget := dictSet player.attributes.private_info.budget gs.current_year_key
                (dictGet player.attributes.private_info.budget gs.current_year_key - a.budget)
              espionage := player.attributes.private_info.espionage ++
                [{ target := a.target_player, focus := a.focus, budget := a.budget,
                   success := decide (roll < min
                     (a.base_success_rate + a.budget / a.budget_scaling) a.max_success_rate),
                   round := gs.round_number }] } },
      ?_, rfl, rfl, rfl, rfl, dictGet_dictSet_same _ _ _, rfl⟩
    rw [getPlayerByName_update_same, hI]
    rfl

def c6A : EspionageAction :=
  { initiating_character_name := "A", target_player := "B", budget := 10, focus := "labs" }

def c6P1 : RSPlayer :=
  ⟨"A",
   { name := "A"
     private_info :=
       { true_asset_balance := { technical_capability := 5, capital := 5, human := 5 }
         objectives := "lead"
         strategy := "spy"
         budget := [("2030", 100)] }
     public_view :=
       { asset_balance := { technical_capability := 5, capital := 5, human := 5 }
         stated_objectives := "lead"
         stated_strategy := "spy" } }⟩

def c6P2 : RSPlayer :=
  ⟨"B",
   { name := "B"
     private_info :=
       { true_asset_balance := { technical_capability := 7, capital := 9, human := 40 }
         objectives := "grow"
         strategy := "hire"
         budget := [("2030", 200)] }
     public_view :=
       { asset_balance := { technical_capability := 7, capital := 9, human := 40 }
         stated_objectives := "grow"
         stated_strategy := "hire" } }⟩

theorem C6_espionage_frame_witness :
    getPlayerByName c6A.target_player [c6P1, c6P2] = some c6P2 ∧
    getPlayerByName c6A.initiating_character_name [c6P1, c6P2] = some c6P1 ∧
    c6A.target_player ≠ c6A.initiating_character_name ∧
    c6A.budget ≤ dictGet c6P1.attributes.private_info.budget c3GS.current_year_key ∧
    getPlayerByName c6A.target_player (c6A.handle_one c3GS [c6P1, c6P2] 0.99).1
      = some c6P2 := by
  have h := C6_espionage_frame c6A c3GS [c6P1, c6P2] 0.99 c6P2 c6P1
    (by decide) (by decide) (by decide) (by decide)
  exact ⟨by decide, by decide, by decide, by decide, h.1⟩

/-- `PoachTalentAction` (`research_strategy_game_mechanics.py:778`). -/
structure PoachTalentAction where
  initiating_character_name : String
  target : String
  budget : ℚ
  base_success_rate : ℚ := 0.2
  budget_scaling : ℚ := 500000
  max_success_rate : ℚ := 0.6
  transfer_rate : ℚ := 0.1
  max_transfer : ℚ := 5
deriving DecidableEq, Repr

/-- `PoachTalentAction.validate_action` (`research_strategy_game_mechanics.py:795`). -/
def PoachTalentAction.validate_action (a : PoachTalentAction)
    (game_state : ResearchStrategyGameState) (players : List RSPlayer) : Option String :=
  match Action.base_validate a.initiating_character_name players with
  | some e => some e
  | none =>
    if a.target = "" then some "Poaching requires target character"
    else if a.budget = 0 ∨ a.budget ≤ 0 then some "Poaching requires positive budget"
    else if ¬ players.any (fun p => p.name == a.target) then
      some ("Target character '" ++ a.target ++ "' not found")
    else
      match getPlayerByName a.initiating_character_name players with
      | none => some ("Player '" ++ a.initiating_character_name ++ "' not found")
      | some player =>
        if dictGet player.attributes.private_info.budget game_state.current_year_key
            < a.budget then
          some "Insufficient budget for poaching"
        else none

/-- One iteration of `PoachTalentAction.handle_actions`
(`research_strategy_game_mechanics.py:861`) combined with
`_process_single_action` (`:822`): the Python code writes through the aliased
`player_state` (the initiator's entry) and `target_player` objects; here each
write is a first-match update of the players list, in the source's order
(budget deduction on the initiator, then on success the human-capital
transfer out of the target and into the initiator). An action whose initiator
is unknown is skipped (`continue`). -/
def PoachTalentAction.handle_one (a : PoachTalentAction)
    (game_state : ResearchStrategyGameState) (players : List RSPlayer) (roll : ℚ) :
    List RSPlayer × List String :=
  match getPlayerByName a.initiating_character_name players with
  | none => (players, [])
  | some player =>
    match getPlayerByName a.target players with
    | none => (players, ["Fail:target '" ++ a.target ++ "' not found"])
    | some _ =>
      let year := game_state.current_year_key
      let budget := dictGet player.attributes.private_info.budget year
      if budget < a.budget then (players, ["Fail:Insufficient budget for poaching"])
      else
        let players1 := updatePlayerByName players a.initiating_character_name (fun ps =>
          { ps with private_info :=
              { ps.private_info with
                  budget := dictSet ps.private_info.budget year (budget - a.budget) } })
        let success_prob := min (a.base_success_rate + a.budget / a.budget_scaling)
          a.max_success_rate
        if roll < success_prob then
          match getPlayerByName a.target players1 with
          | none => (players1, [])
          | some target_player =>
            let transfer_amount := min
              (target_player.attributes.private_info.true_asset_balance.human
                * a.transfer_rate)
              a.max_transfer
            let players2 := updatePlayerByName players1 a.target (fun ps =>
              { ps with private_info :=
                  { ps.private_info with
                      true_asset_balance :=
                        { ps.private_info.true_asset_balance with
                            human := ps.private_info.true_asset_balance.human
                              - transfer_amount } } })
            let players3 := updatePlayerByName players2 a.initiating_character_name (fun ps =>
              { ps with private_info :=
                  { ps.private_info with
                      true_asset_balance :=
                        { ps.private_info.true_asset_balance with
                            human := ps.private_info.true_asset_balance.human
                              + transfer_amount } } })
            (players3, ["Success:Poached talent from " ++ a.target ++ " (gained "
              ++ fmtFloat transfer_amount ++ " human resources)"])
        else (players1, ["Fail:Poaching attempt on " ++ a.target])

/-- C9: a successful poach moves exactly
`min(target.human * transfer_rate, max_transfer)` human capital from the
target's true asset balance to the initiator's. -/
theorem C9_poach_transfer (a : PoachTalentAction) (gs : ResearchStrategyGameState)
    (players : List RSPlayer) (roll : ℚ) (tgt player : RSPlayer)
    (hI : getPlayerByName a.initiating_character_name players = some player)
    (hT : getPlayerByName a.target players = some tgt)
    (hne : a.target ≠ a.initiating_character_name)
    (hbud : a.budget ≤ dictGet player.attributes.private_info.budget gs.current_year_key)
    (hsucc : roll < min (a.base_success_rate + a.budget / a.budget_scaling)
      a.max_success_rate) :
    (getPlayerByName a.target (a.handle_one gs players roll).1).map
        (fun p => p.attributes.private_info.true_asset_balance.human)
      = some (tgt.attributes.private_info.true_asset_balance.human
          - min (tgt.attributes.private_info.true_asset_balance.human * a.transfer_rate)
              a.max_transfer) ∧
    (getPlayerByName a.initiating_character_name (a.handle_one gs players roll).1).map
        (fun p => p.attributes.private_info.true_asset_balance.human)
      = some (player.attributes.private_info.true_asset_balance.human
          + min (tgt.attributes.private_info.true_asset_balance.human * a.transfer_rate)
              a.max_transfer) := by
  unfold PoachTalentAction.handle_one
  rw [hI, hT]
  simp only
  rw [if_neg (not_lt.mpr hbud), if_pos hsucc]
  rw [getPlayerByName_update_ne _ _ _ _ hne, hT]
  simp only
  constructor
  · rw [getPlayerByName_update_ne _ _ _ _ hne, getPlayerByName_update_same,
      getPlayerByName_update_ne _ _ _ _ hne, hT]
    rfl
  · rw [getPlayerByName_update_same, getPlayerByName_update_ne _ _ _ _ (Ne.symm hne),
      getPlayerByName_update_same, hI]
    rfl

def c9A : PoachTalentAction :=
  { initiating_character_name := "A", target := "B", budget := 10 }

theorem C9_poach_transfer_witness :
    getPlayerByName c9A.initiating_character_name [c6P1, c6P2] = some c6P1 ∧
    getPlayerByName c9A.target [c6P1, c6P2] = some c6P2 ∧
    c9A.target ≠ c9A.initiating_character_name ∧
    c9A.budget ≤ dictGet c6P1.attributes.private_info.budget c3GS.current_year_key ∧
    (0 : ℚ) < min (c9A.base_success_rate + c9A.budget / c9A.budget_scaling)
      c9A.max_success_rate ∧
    c9A.transfer_rate = 0.1 ∧ c9A.max_transfer = 5 ∧
    c6P2.attributes.private_info.true_asset_balance.human = 40 ∧
    (getPlayerByName c9A.target (c9A.handle_one c3GS [c6P1, c6P2] 0).1).map
      (fun p => p.attributes.private_info.true_asset_balance.human) = some 36 ∧
    (getPlayerByName c9A.initiating_character_name (c9A.handle_one c3GS [c6P1, c6P2] 0).1).map
      (fun p => p.attributes.private_info.true_asset_balance.human) = some 9 := by
  have h := C9_poach_transfer c9A c3GS [c6P1, c6P2] 0 c6P2 c6P1
    (by decide) (by decide) (by decide) (by decide) (by norm_num [c9A, min_def])
  refine ⟨by decide, by decide, by decide, by decide, by norm_num [c9A, min_def],
    rfl, rfl, by decide, ?_, ?_⟩
  · exact h.1.trans (by norm_num [c6P2, c9A, min_def])
  · exact h.2.trans (by norm_num [c6P1, c6P2, c9A, min_def])

/-- `MessageAction` (`research_strategy_game_mechanics.py:1012`). -/
structure MessageAction where
  initiating_character_name : String
  to_character : String
  content : String
deriving DecidableEq, Repr

/-- `MessageAction.validate_action` (`research_strategy_game_mechanics.py:1022`). -/
def MessageAction.validate_action (a : MessageAction)
    (_game_state : ResearchStrategyGameState) (players : List RSPlayer) : Option String :=
  match Action.base_validate a.initiating_character_name players with
  | some e => some e
  | none =>
    if a.to_character = "" then some "Message requires recipient"
    else if ¬ players.any (fun p => p.name == a.to_character) then
      some ("Recipient '" ++ a.to_character ++ "' not found")
    else none

theorem any_name_of_getPlayerByName (n : String) (players : List RSPlayer) (p : RSPlayer)
    (h : getPlayerByName n players = some p) :
    players.any (fun q => q.name == n) = true := by
  induction players with
  | nil => simp [getPlayerByName] at h
  | cons q rest ih =>
      unfold getPlayerByName at h
      by_cases hq : q.name = n
      · simp [List.any_cons, hq]
      · rw [if_neg hq] at h
        simp [List.any_cons, ih h]

def c2Esp : EspionageAction :=
  { initiating_character_name := "A", target_player := "A", budget := 10, focus := "all" }

def c2Poach : PoachTalentAction :=
  { initiating_character_name := "A", target := "A", budget := 10 }

def c2Msg : MessageAction :=
  { initiating_character_name := "A", to_character := "A", content := "hi" }

/-- C2 counterexample: a self-targeted espionage action, a self-targeted
poach action and a self-addressed bilateral message, each satisfying every
other check, all validate to `none` — no validator rejects targeting the
initiating participant itself, contrary to the claim. -/
theorem C2_self_target_counterexample :
    c2Esp.target_player = c2Esp.initiating_character_name ∧
    c2Esp.validate_action c3GS [c6P1] = none ∧
    c2Poach.target = c2Poach.initiating_character_name ∧
    c2Poach.validate_action c3GS [c6P1] = none ∧
    c2Msg.to_character = c2Msg.initiating_character_name ∧
    c2Msg.validate_action c3GS [c6P1] = none := by
  refine ⟨rfl, by decide, rfl, by decide, rfl, by decide⟩

/-- C2 (amended): the espionage, poach-talent and bilateral-message
validators contain no self-target check: a self-targeted action of any of
these kinds whose other checks pass (initiator exists — hence the target,
being the same participant, exists — target name non-empty, budget positive
where required, current-year budget sufficient) validates to `none`. -/
theorem C2_no_self_target_check (gs : ResearchStrategyGameState) (players : List RSPlayer) :
    (∀ (a : EspionageAction) (player : RSPlayer),
      a.target_player = a.initiating_character_name →
      getPlayerByName a.initiating_character_name players = some player →
      a.target_player ≠ "" → 0 < a.budget →
      a.budget ≤ dictGet player.attributes.private_info.budget gs.current_year_key →
      a.validate_action gs players = none) ∧
    (∀ (a : PoachTalentAction) (player : RSPlayer),
      a.target = a.initiating_character_name →
      getPlayerByName a.initiating_character_name players = some player →
      a.target ≠ "" → 0 < a.budget →
      a.budget ≤ dictGet player.attributes.private_info.budget gs.current_year_key →
      a.validate_action gs players = none) ∧
    (∀ (a : MessageAction) (player : RSPlayer),
      a.to_character = a.initiating_character_name →
      getPlayerByName a.initiating_character_name players = some player →
      a.to_character ≠ "" →
      a.validate_action gs players = none) := by
  refine ⟨?_, ?_, ?_⟩
  · intro a player hself hfind hne hpos hbud
    have hany : players.any (fun q => q.name == a.target_player) = true := by
      rw [hself]
      exact any_name_of_getPlayerByName _ _ _ hfind
    unfold EspionageAction.validate_action Action.base_validate
    rw [hfind]
    simp only
    rw [if_neg hne, if_neg (by simp [hany]), if_neg (not_le.mpr hpos),
      if_neg (not_lt.mpr hbud)]
  · intro a player hself hfind hne hpos hbud
    have hany : players.any (fun q => q.name == a.target) = true := by
      rw [hself]
      exact any_name_of_getPlayerByName _ _ _ hfind
    unfold PoachTalentAction.validate_action Action.base_validate
    rw [hfind]
    simp only
    rw [if_neg hne, if_neg (by push_neg; exact ⟨ne_of_gt hpos, hpos⟩),
      if_neg (by simp [hany]), if_neg (not_lt.mpr hbud)]
  · intro a player hself hfind hne
    have hany : players.any (fun q => q.name == a.to_character) = true := by
      rw [hself]
      exact any_name_of_getPlayerByName _ _ _ hfind
    unfold MessageAction.validate_action Action.base_validate
    rw [hfind]
    simp only
    rw [if_neg hne, if_neg (by simp [hany])]

theorem C2_no_self_target_check_witness :
    c2Esp.target_player = c2Esp.initiating_character_name ∧
    getPlayerByName c2Esp.initiating_character_name [c6P1] = some c6P1 ∧
    (0 : ℚ) < c2Esp.budget ∧
    c2Esp.budget ≤ dictGet c6P1.attributes.private_info.budget c3GS.current_year_key ∧
    c2Esp.validate_action c3GS [c6P1] = none ∧
    c2Poach.validate_action c3GS [c6P1] = none ∧
    c2Msg.validate_action c3GS [c6P1] = none := by
  have h := C2_no_self_target_check c3GS [c6P1]
  exact ⟨rfl, by decide, by decide, by decide,
    h.1 c2Esp c6P1 rfl (by decide) (by decide) (by decide) (by decide),
    h.2.1 c2Poach c6P1 rfl (by decide) (by decide) (by decide) (by decide),
    h.2.2 c2Msg c6P1 rfl (by decide) (by decide)⟩

/-- The inner while-loop of `ResearchStrategyGameMaster.get_player_move`
(`research_strategy_game_mechanics.py:1576`): scan `moves_to_validate` from
index `i`; a move that validates is popped and appended to `valid_moves`
(the index is not advanced, since the list shrank); a rejected move is
replaced in place by the player's corrected move (`correct_moves`, an
external oracle here) and the index advances past it, so the corrected move
is not re-validated during this pass. Returns the final
`(moves_to_validate, valid_moves)`. -/
def validateMovesPass {Move : Type} (validate : Move → Option String)
    (correct : Move → String → Move) (moves : List Move) (i : Nat) (valid : List Move) :
    List Move × List Move :=
  if h : 0 < moves.length ∧ i < moves.length then
    let candidate := moves.get ⟨i, h.2⟩
    match validate candidate with
    | none => validateMovesPass validate correct (moves.eraseIdx i) i (valid ++ [candidate])
    | some err =>
        validateMovesPass validate correct (moves.set i (correct candidate err)) (i + 1) valid
  else (moves, valid)
termination_by moves.length - i
decreasing_by
  · have h2 := h.2
    have h3 := List.length_eraseIdx_add_one h2
    omega
  · simp only [List.length_set]
    omega

/-- `ResearchStrategyGameMaster.get_player_move`
(`research_strategy_game_mechanics.py:1556`): run `max_attempts`
propose-and-validate passes; every pass calls the player's `propose_actions`
afresh (oracle `propose`, indexed by the attempt) and resets `valid_moves`;
the function returns the final pass's `valid_moves`. -/
def get_player_move {Move : Type} (max_attempts : Nat) (propose : Nat → List Move)
    (validate : Move → Option String) (correct : Move → String → Move) : List Move :=
  (List.range max_attempts).foldl
    (fun _ attempt => (validateMovesPass validate correct (propose attempt) 0 []).2) []

theorem validateMovesPass_valid {Move : Type} (validate : Move → Option String)
    (correct : Move → String → Move) :
    ∀ (k : Nat) (moves : List Move) (i : Nat) (valid : List Move),
      moves.length - i ≤ k →
      (∀ m ∈ valid, validate m = none) →
      ∀ m ∈ (validateMovesPass validate correct moves i valid).2, validate m = none := by
  intro k
  induction k with
  | zero =>
      intro moves i valid hk hvalid
      rw [validateMovesPass, dif_neg (fun hc => by omega)]
      exact hvalid
  | succ k ih =>
      intro moves i valid hk hvalid
      rw [validateMovesPass]
      by_cases h : 0 < moves.length ∧ i < moves.length
      · rw [dif_pos h]
        simp only
        cases hv : validate (moves.get ⟨i, h.2⟩) with
        | none =>
            exact ih _ _ _ (by have := List.length_eraseIdx_add_one h.2; omega)
              (by
                intro m hm
                rcases List.mem_append.mp hm with hmem | hmem
                · exact hvalid m hmem
                · rw [List.mem_singleton.mp hmem]
                  exact hv)
        | some err =>
            exact ih _ _ _ (by simp only [List.length_set]; omega) hvalid
      · rw [dif_neg h]
        exact hvalid

/-- C1 (amended): `get_player_move` always terminates, making exactly
`max_attempts` propose-and-validate passes, and its result is the final
pass's accepted list, every member of which passed validation; a proposal
that is still unvalidated when the final pass ends (rejected once and
corrected, since a corrected move is never re-validated within a pass) is
dropped from the returned list rather than returned as the last attempted
action. -/
theorem C1_bounded_retries {Move : Type} (n : Nat) (propose : Nat → List Move)
    (validate : Move → Option String) (correct : Move → String → Move) :
    get_player_move (n + 1) propose validate correct
      = (validateMovesPass validate correct (propose n) 0 []).2 ∧
    ∀ m ∈ get_player_move (n + 1) propose validate correct, validate m = none := by
  have heq : get_player_move (n + 1) propose validate correct
      = (validateMovesPass validate correct (propose n) 0 []).2 := by
    unfold get_player_move
    rw [List.range_succ, List.foldl_append]
    rfl
  refine ⟨heq, ?_⟩
  rw [heq]
  exact validateMovesPass_valid validate correct (propose n).length (propose n) 0 []
    (by omega) (by intro m hm; exact absurd hm (List.not_mem_nil m))

theorem C1_bounded_retries_witness :
    get_player_move 1 (fun _ => [(5 : ℕ)]) (fun _ => none) (fun m _ => m)
      = (validateMovesPass (fun _ => (none : Option String)) (fun m _ => m) [(5 : ℕ)] 0 []).2 ∧
    ∀ m ∈ get_player_move 1 (fun _ => [(5 : ℕ)]) (fun _ => none) (fun m _ => m),
      (fun _ : ℕ => (none : Option String)) m = none :=
  ⟨(C1_bounded_retries 0 (fun _ => [(5 : ℕ)]) (fun _ => none) (fun m _ => m)).1,
   (C1_bounded_retries 0 (fun _ => [(5 : ℕ)]) (fun _ => none) (fun m _ => m)).2⟩

/-- C1 counterexample: one proposal per attempt that never validates, whose
correction is the same move again. `get_player_move` terminates, but the
returned list is empty: the proposal ends neither accepted nor returned as
the last attempted (still invalid) action — it is dropped, contrary to the
claim that no proposal ever ends any other way. -/
theorem C1_dropped_proposal_counterexample :
    get_player_move 3 (fun _ => [(0 : ℕ)]) (fun _ => some "invalid") (fun m _ => m) = [] ∧
    (0 : ℕ) ∉ get_player_move 3 (fun _ => [(0 : ℕ)]) (fun _ => some "invalid") (fun m _ => m) := by
  have hpass : validateMovesPass (fun _ : ℕ => some "invalid") (fun m _ => m) [0] 1 []
      = ([0], []) := by
    rw [validateMovesPass, dif_neg (by decide)]
  have hpass0 : validateMovesPass (fun _ : ℕ => some "invalid") (fun m _ => m) [0] 0 []
      = ([0], []) := by
    rw [validateMovesPass, dif_pos (by decide)]
    simpa using hpass
  have h : get_player_move 3 (fun _ => [(0 : ℕ)]) (fun _ => some "invalid") (fun m _ => m)
      = [] := by
    rw [(C1_bounded_retries 2 (fun _ => [(0 : ℕ)]) (fun _ => some "invalid") (fun m _ => m)).1,
      hpass0]
  exact ⟨h, by rw [h]; exact List.not_mem_nil 0⟩

/-- `ResearchStrategyPlayerStateUpdates`
(`research_strategy_game_mechanics.py:166`), restricted to the fields filled
by `_create_update_messages`. -/
structure ResearchStrategyPlayerStateUpdates where
  completed_projects : List String := []
  updated_projects : List ResearchProject := []
  new_messages : List Message := []
  other_players_public_views : List (String × PublicView) := []
  public_events : List String := []
  action_results : List String := []
  espionage_results : List String := []
  global_summary : String := ""
deriving DecidableEq, Repr

/-- The flattening applied to a player's result strings at
`research_strategy_game_mechanics.py:1737`:
`[x for result_list in action_results[player.name] for x in result_list]`.
`action_results[player.name]` is a flat `List[str]` (built by
`simulate_one_round`, `:1624`-`:1644`), so each `result_list` is a string and
iterating it yields its characters (one-character strings in Python). -/
def flattenActionResults (results : List String) : List String :=
  results.flatMap (fun s => s.data.map (fun c => String.mk [c]))

/-- `ResearchStrategyPlayerState.get_messages_for_round`
(`research_strategy_game_mechanics.py:144`). -/
def get_messages_for_round (inbox : List Message) (round_number : ℤ) : List Message :=
  inbox.filter (fun msg => msg.round_number == round_number)

/-- Python list slice `l[-n:]`: the last `n` elements. -/
def lastSlice {α : Type} (n : ℕ) (l : List α) : List α := l.drop (l.length - n)

/-- The per-player body of `ResearchStrategyGameMaster._create_update_messages`
(`research_strategy_game_mechanics.py:1731`-`:1768`): one update broadcast.
`action_results` maps player names to this round's result strings;
`action_summary` is the round summary built by `_create_action_summary`
(pure string formatting over the same data). The `hasattr` espionage
side-channel (`:1740`) does not exist on `ResearchStrategyPlayerState`, so
`espionage_results` stays empty. -/
def create_update_for_player (player : RSPlayer) (players : List RSPlayer)
    (game_state : ResearchStrategyGameState)
    (action_results : List (String × List String)) (action_summary : String) :
    ResearchStrategyPlayerStateUpdates :=
  let base : ResearchStrategyPlayerStateUpdates := {}
  let results : List String :=
    match action_results.find? (fun e => e.1 == player.name) with
    | some e => flattenActionResults e.2
    | none => base.action_results
  { base with
      action_results := results
      completed_projects :=
        (player.attributes.private_info.projects.filter
          (fun p => p.status == "completed")).map (fun p => p.project_name)
      updated_projects :=
        player.attributes.private_info.projects.filter (fun p => p.status == "active")
      new_messages := get_messages_for_round player.attributes.inbox game_state.round_number
      other_players_public_views :=
        (players.filter (fun q => q.name != player.name)).map
          (fun q => (q.name, q.attributes.public_view))
      public_events := lastSlice 5 game_state.public_events
      global_summary := action_summary }

def c7P : RSPlayer := ⟨"P1", c3PS⟩

/-- C7: evaluating the broadcast construction at a player whose single result
string for the round is `"Go!"`: the broadcast's `action_results` comes out
as the string's one-character substrings `["G", "o", "!"]`, not as the list
`["Go!"]` of the participant's result strings — the comprehension at line
1737 iterates over the characters of each result string. The remaining
broadcast fields (messages for the round, other players' public views, last
five public events, global summary) match the claim. -/
theorem C7_action_results_characters :
    (create_update_for_player c7P [c7P, c6P2] c3GS [("P1", ["Go!"])] "sum").action_results
      = ["G", "o", "!"] ∧
    (create_update_for_player c7P [c7P, c6P2] c3GS [("P1", ["Go!"])] "sum").action_results
      ≠ ["Go!"] ∧
    (create_update_for_player c7P [c7P, c6P2] c3GS [("P1", ["Go!"])] "sum").other_players_public_views
      = [("B", c6P2.attributes.public_view)] ∧
    (create_update_for_player c7P [c7P, c6P2] c3GS [("P1", ["Go!"])] "sum").new_messages = [] ∧
    (create_update_for_player c7P [c7P, c6P2] c3GS [("P1", ["Go!"])] "sum").public_events = [] ∧
    (create_update_for_player c7P [c7P, c6P2] c3GS [("P1", ["Go!"])] "sum").global_summary
      = "sum" := by
  refine ⟨by decide, by decide, by decide, by decide, by decide, by decide⟩
